import Mathlib

/-!
Shallow embedding of `src/OpenSkySensor.py` (class `OpenSkySensor`, a
rate-limited fetch/transform/cache sensor adapter over the OpenSky REST API).

Modelling conventions:
* Python `None` is `Option.none`; a Python value that may be a list or `None`
  is `Option (List _)`.
* Machine numbers occurring in the summaries (altitude, speed, vertical rate)
  are modelled as exact rationals; the conversion factors 3.281 and 2.237 are
  the exact rationals the source literals denote.
* An uncaught Python exception propagating to the caller is modelled by the
  `PyResult.typeError` constructor of an explicit result type.
* The base class `SensorX` (module `sensor`) is not part of the repository
  sources; its members used here (`_request_allowed`, `_read_buffer`,
  `_write_buffer`, `_save_settings` and the persisted props) are modelled from
  the specification, and are marked `Modelled from the spec:` below.
-/

namespace OpenSky

/-- Conversion factor meters to feet (`OpenSkySensor.CONV_ALT = 3.281`, line 30),
as the exact rational the source literal denotes. -/
def CONV_ALT : ℚ := 3.281

/-- Conversion factor m/s to mi/hr (`OpenSkySensor.CONV_SPD = 2.237`, line 31). -/
def CONV_SPD : ℚ := 2.237

/-- The argument `f_track` of `get_trackdir`: a numeric heading in degrees,
Python `None`, or the sentinel string `"null"` (the source tests
`f_track is "null" or f_track is None`). Headings are modelled as integer
degrees; a non-numeric, non-sentinel argument is outside this type (in the
source it would raise `TypeError`, caught and turned into `[]`). -/
inductive TrackInput where
  | pyNone : TrackInput
  | nullStr : TrackInput
  | num (f : Int) : TrackInput
deriving DecidableEq

/-- `OpenSkySensor.TRACK_LIST` (lines 34-35): the compass-direction table, in
the insertion order in which a Python 3.7+ dict iterates its keys. -/
def TRACK_LIST : List (Int × String) :=
  [(0, "North"), (45, "NorthEast"), (90, "East"), (135, "SouthEast"),
   (180, "South"), (225, "SouthWest"), (270, "West"), (315, "NorthWest")]

/-- The loop body of `get_trackdir` (lines 114-121), folded over `TRACK_LIST`
with accumulator `true_track` (initially the empty string). Each iteration
runs two statements in order:
1. `if (int(degree) - f_track) <= 1: true_track = TRACK_LIST[degree]`
2. `if (int(degree) > f_track) and (int(degree) - f_track) < 45:
       true_track = TRACK_LIST[degree]
    else: true_tract = TRACK_LIST[315]`  -- note the misspelt variable
The `else` branch assigns the misspelt `true_tract` and so has no effect. -/
def trackFold (f : Int) : String :=
  TRACK_LIST.foldl
    (fun acc dn =>
      let acc1 := if dn.1 - f ≤ 1 then dn.2 else acc
      if dn.1 > f ∧ dn.1 - f < 45 then dn.2 else acc1)
    ""

/-- `OpenSkySensor.get_trackdir` (lines 101-126): returns Python `None` for the
`None`/`"null"` sentinel inputs, otherwise the string left in `true_track`
after the loop over `TRACK_LIST`. The `except` branch returning `[]` is
unreachable for the numeric inputs this type admits. -/
def get_trackdir : TrackInput → Option String
  | .pyNone => none
  | .nullStr => none
  | .num f => some (trackFold f)

/-- One entry of the side file `Aircrafts.json`: the static reference table of
aircraft types (spec section 6: a JSON array of icao24/manufacturer/model
records). -/
structure AircraftCode where
  icao24 : String
  manufacturer : String
  model : String
deriving DecidableEq

/-- The inner `for c in range(len(codes))` loop of `get_typeofaircraft`
(lines 141-151), carried over the running pair
`(aircraft_mfc, aircraft_mod)`: a matching entry assigns its manufacturer and
model and breaks; every non-matching entry assigns the
`Unidentified`/`Unknown` defaults and continues. -/
def scanCodes (codes : List AircraftCode) (ic : String) (acc : String × String) :
    String × String :=
  match codes with
  | [] => acc
  | c :: rest =>
      if c.icao24 = ic then (c.manufacturer, c.model)
      else scanCodes rest ic ("Unidentified", "Unknown")

/-- `OpenSkySensor.get_typeofaircraft` (lines 128-161). `dictLen` is
`len(ft_dict)`, the number of keys of the argument dict: the outer
`for i in range(len(ft_dict))` loop runs the identical inner scan that many
times, so when `dictLen = 0` the function returns the empty dict `f_type`
(modelled `none`) with no `Manufacturer`/`Model` keys, and when
`dictLen ≥ 1` it returns the inner scan result started from the initial
empty-string accumulator (re-running the scan leaves the result unchanged,
since a non-empty table overwrites the accumulator in its first step and an
empty table never changes it). -/
def get_typeofaircraft (dictLen : Nat) (codes : List AircraftCode) (ic : String) :
    Option (String × String) :=
  if dictLen = 0 then none
  else some (scanCodes codes ic ("", ""))

/-- One aircraft state vector of the service payload (spec section 3): the
fields of the array row `v` that `_create_content` reads (lines 188-195).
A valid vector carries a string identifier and numeric kinematics; the
heading may be null. -/
structure StateVector where
  icao24 : String
  callsign : String
  longitude : ℚ
  latitude : ℚ
  speed : ℚ
  track : TrackInput
  vertRate : ℚ
  geoAlt : ℚ
deriving DecidableEq

/-- The service payload: `time` (epoch seconds) and `states`, which is a list
of vectors or null (`fs_json["states"] == "null" or fs_json["states"] is None`
are both modelled by `none`). -/
structure Payload where
  time : Int
  states : Option (List StateVector)
deriving DecidableEq

/-- One formatted output record `f_out` (lines 218-223). String assembly and
`strftime` are not re-implemented; the record holds the exact data from which
those strings are composed: the key `k`, the payload epoch behind the
`date & time` string, the caption pair (upper-cased into the caption text),
the raw heading and its compass name, the converted altitude, speed and
vertical rate, and the climb/descend label. -/
structure FormattedRecord where
  k : String
  timeEpoch : Int
  manufacturer : String
  model : String
  trackRaw : TrackInput
  trackDirName : Option String
  altFeet : ℚ
  speedMph : ℚ
  vertRateFeet : ℚ
  vertPos : String
deriving DecidableEq

/-- The loop body of `_create_content` (lines 186-225) for one vector `v`:
resolve the aircraft type (the dict passed to `get_typeofaircraft` always has
at least its `icao24` key, so `dictLen = 1` stands for any positive length),
compute the climb label from the sign of the vertical rate, convert altitude
and vertical rate by `CONV_ALT` and speed by `CONV_SPD`, and assemble the
record keyed by the vector identifier. -/
def mkRecord (codes : List AircraftCode) (t : Int) (v : StateVector) :
    FormattedRecord :=
  let ftype := (get_typeofaircraft 1 codes v.icao24).getD ("", "")
  { k := v.icao24
    timeEpoch := t
    manufacturer := ftype.1
    model := ftype.2
    trackRaw := v.track
    trackDirName := get_trackdir v.track
    altFeet := v.geoAlt * CONV_ALT
    speedMph := v.speed * CONV_SPD
    vertRateFeet := v.vertRate * CONV_ALT
    vertPos := if v.vertRate > 0 then "CLIMBING" else "DESCENDING" }

/-- `OpenSkySensor._create_content` (lines 167-230): `None` when the payload
state list is null, otherwise one record per vector, in order. The `except`
branch returning `[]` is unreachable for the well-typed payloads this
embedding admits. -/
def _create_content (codes : List AircraftCode) (p : Payload) :
    Option (List FormattedRecord) :=
  match p.states with
  | none => none
  | some vs => some (vs.map (mkRecord codes p.time))

/-- The sensor state the adapter reads and writes across calls: the persisted
props (`last_used` epoch, `request_delta` cool-down) and the cached buffer.
Modelled from the spec: `SensorX` persistence, section 6
(`read_settings`/`write_settings`/`read_cache`/`write_cache`) and section 3
(buffer empty/absent until a write occurs). The buffer holds exactly what the
last `_write_buffer` call stored, which in the source may be `None`. -/
structure SensorState where
  last_used : Option Int
  request_delta : Int
  buffer : Option (List FormattedRecord)
deriving DecidableEq

/-- The outcome of the one `requests.get` call of `_fetch_data`:
`netError` when the GET itself raises (`HTTPError`, `Timeout`,
`ConnectionError`), otherwise a response with a status code and a body that
is a parsed payload, or `none` when `response.json()` raises `ValueError`
(unparseable). -/
inductive HttpResult where
  | netError : HttpResult
  | response (status : Nat) (body : Option Payload) : HttpResult
deriving DecidableEq

/-- The result a public method hands its caller: a returned value, or an
uncaught `TypeError` propagating out (as `len(None)` raises in the source). -/
inductive PyResult (α : Type) where
  | ok (a : α) : PyResult α
  | typeError : PyResult α
deriving DecidableEq

/-- Modelled from the spec: `SensorX._request_allowed` (section 4.1) permits a
fetch when no prior fetch has occurred, or when more than `request_delta`
wall-clock seconds have elapsed since `last_used`. -/
def _request_allowed (now : Int) (s : SensorState) : Bool :=
  match s.last_used with
  | none => true
  | some t => decide (now - t > s.request_delta)

/-- Modelled from the spec: `SensorX._read_buffer` (section 6 `read_cache`)
returns the last stored cache value. -/
def _read_buffer (s : SensorState) : Option (List FormattedRecord) :=
  s.buffer

/-- Modelled from the spec: `SensorX._write_buffer` (section 6 `write_cache`)
stores its argument as the new cache value. -/
def _write_buffer (content : Option (List FormattedRecord)) (s : SensorState) :
    SensorState :=
  { s with buffer := content }

/-- `OpenSkySensor._fetch_data` (lines 76-92). Inside the `try`: the GET runs
first (a raising GET is `netError`, caught, yielding `None` with the state
untouched); then `last_used` is set to the current time and persisted via
`_save_settings` (modelled as the state update) BEFORE the status code is
examined; on status 200 the body is parsed and transformed and the result
written to the buffer (even when `_create_content` returned `None`); an
unparseable 200 body raises `ValueError` at `response.json()`, caught,
yielding `None` with the buffer untouched; a non-200 status yields `None`
with the buffer untouched. -/
def _fetch_data (codes : List AircraftCode) (now : Int) (r : HttpResult)
    (s : SensorState) : Option (List FormattedRecord) × SensorState :=
  match r with
  | .netError => (none, s)
  | .response status body =>
      let s1 : SensorState := { s with last_used := some now }
      if status = 200 then
        match body with
        | some p =>
            let content := _create_content codes p
            (content, _write_buffer content s1)
        | none => (none, s1)
      else (none, s1)

/-- `OpenSkySensor.get_all` (lines 69-74): fetch when the gate allows it,
otherwise read the cached buffer. -/
def get_all (codes : List AircraftCode) (now : Int) (r : HttpResult)
    (s : SensorState) : Option (List FormattedRecord) × SensorState :=
  if _request_allowed now s then _fetch_data codes now r s
  else (_read_buffer s, s)

/-- `OpenSkySensor.has_updates` (lines 56-62): when the gate allows, fetch and
return 1 iff the result is non-empty with first key different from `k`;
otherwise 0. `0 < len(content)` raises an uncaught `TypeError` when the fetch
returned `None`. -/
def has_updates (codes : List AircraftCode) (now : Int) (r : HttpResult)
    (k : String) (s : SensorState) : PyResult Nat × SensorState :=
  if _request_allowed now s then
    match _fetch_data codes now r s with
    | (none, s2) => (.typeError, s2)
    | (some [], s2) => (.ok 0, s2)
    | (some (rec :: _), s2) =>
        (if rec.k = k then .ok 0 else .ok 1, s2)
  else (.ok 0, s)

/-- `OpenSkySensor.get_content` (lines 64-67): the `get_all` result when it is
non-empty with first key different from `k`, else `None`. `0 < len(content)`
raises an uncaught `TypeError` when `get_all` returned `None`. -/
def get_content (codes : List AircraftCode) (now : Int) (r : HttpResult)
    (k : String) (s : SensorState) :
    PyResult (Option (List FormattedRecord)) × SensorState :=
  match get_all codes now r s with
  | (none, s2) => (.typeError, s2)
  | (some [], s2) => (.ok none, s2)
  | (some (rec :: rest), s2) =>
      (if rec.k = k then .ok none else .ok (some (rec :: rest)), s2)

/-- A sample state vector used in concrete witnesses and counterexamples. -/
def sampleVec : StateVector :=
  { icao24 := "a1b2c3", callsign := "UAL123", longitude := -117, latitude := 32
    speed := 100, track := .num 90, vertRate := 1, geoAlt := 1000 }

/-- A sample formatted record used in concrete witnesses and counterexamples. -/
def sampleRec : FormattedRecord :=
  mkRecord [] 0 sampleVec

/-- A payload whose state list is null. -/
def nullPayload : Payload :=
  { time := 0, states := none }

/-- A payload with one state vector. -/
def witnessPayload : Payload :=
  { time := 5, states := some [sampleVec] }

/-- A sample reference table with two entries. -/
def witnessCodes : List AircraftCode :=
  [⟨"deadbf", "Boeing", "737"⟩, ⟨"a1b2c3", "Cessna", "172"⟩]

/-- A state with an empty cool-down clock and a non-empty cached buffer. -/
def preState : SensorState :=
  ⟨none, 10, some [sampleRec]⟩

/-- A state with an empty clock, an absent buffer. -/
def emptyState : SensorState :=
  ⟨none, 10, none⟩

/-- A state inside the cool-down window at time 105 with an absent buffer. -/
def coolingState : SensorState :=
  ⟨some 100, 10, none⟩

/-- A state with an empty clock, delta 20, and a non-empty cached buffer. -/
def primedState : SensorState :=
  ⟨none, 20, some [sampleRec]⟩

/-! ## Helper lemmas -/

theorem mkRecord_k (codes : List AircraftCode) (t : Int) (v : StateVector) :
    (mkRecord codes t v).k = v.icao24 :=
  rfl

theorem get_typeofaircraft_one (codes : List AircraftCode) (ic : String) :
    get_typeofaircraft 1 codes ic = some (scanCodes codes ic ("", "")) :=
  rfl

theorem scanCodes_no_match (ic : String) (codes : List AircraftCode) :
    codes ≠ [] → (∀ c ∈ codes, c.icao24 ≠ ic) →
    ∀ acc, scanCodes codes ic acc = ("Unidentified", "Unknown") := by
  induction codes with
  | nil => intro h; exact absurd rfl h
  | cons c rest ih =>
    intro _ hno acc
    have hc : ¬ c.icao24 = ic := hno c (List.mem_cons_self c rest)
    rcases rest with _ | ⟨d, rest2⟩
    · simp [scanCodes, hc]
    · simp only [scanCodes, if_neg hc]
      exact ih (by simp) (fun x hx => hno x (List.mem_cons_of_mem c hx)) ("Unidentified", "Unknown")

theorem scanCodes_find (ic : String) (codes : List AircraftCode) :
    ∀ c, codes.find? (fun e => e.icao24 == ic) = some c →
    ∀ acc, scanCodes codes ic acc = (c.manufacturer, c.model) := by
  induction codes with
  | nil => intro c h; simp at h
  | cons e rest ih =>
    intro c h acc
    by_cases he : e.icao24 = ic
    · rw [List.find?_cons_of_pos _ (by simp [he])] at h
      obtain rfl : e = c := by injection h
      simp [scanCodes, he]
    · rw [List.find?_cons_of_neg _ (by simp [he])] at h
      simp only [scanCodes, if_neg he]
      exact ih c h _

theorem fetch_fst_buffer (codes : List AircraftCode) (now : Int) (r : HttpResult)
    (s : SensorState) (b : Option (List FormattedRecord)) :
    (_fetch_data codes now r { s with buffer := b }).1
      = (_fetch_data codes now r s).1 := by
  rcases r with _ | ⟨status, body⟩
  · rfl
  · rcases body with _ | p <;> simp only [_fetch_data] <;> split <;> rfl

/-! ## Claim theorems -/

/-- C6: `get_trackdir` maps heading 0 to North and heading 90 to East, and
returns null on the `None` input and on the sentinel `"null"` marker. -/
theorem spec_C6_trackdir :
    get_trackdir (.num 0) = some "North" ∧
    get_trackdir (.num 90) = some "East" ∧
    get_trackdir .pyNone = none ∧
    get_trackdir .nullStr = none :=
  ⟨by decide, by decide, rfl, rfl⟩

/-- C7: in every formatted record, altitude and vertical rate are converted
from meters to feet by multiplying by exactly 3.281 (`CONV_ALT`), and speed is
converted from m/s to mph by multiplying by exactly 2.237 (`CONV_SPD`); in
particular 1000 meters yields 3281.0 feet and 100 m/s yields 223.7 mph. -/
theorem spec_C7_conversions :
    (∀ codes t v, (mkRecord codes t v).altFeet = v.geoAlt * CONV_ALT ∧
      (mkRecord codes t v).vertRateFeet = v.vertRate * CONV_ALT ∧
      (mkRecord codes t v).speedMph = v.speed * CONV_SPD) ∧
    CONV_ALT = 3.281 ∧ CONV_SPD = 2.237 ∧
    (1000 : ℚ) * CONV_ALT = 3281 ∧ (100 : ℚ) * CONV_SPD = 223.7 :=
  ⟨fun _ _ _ => ⟨rfl, rfl, rfl⟩, rfl, rfl,
    by norm_num [CONV_ALT], by norm_num [CONV_SPD]⟩

/-- C4: for every payload whose state list holds `vs`, `_create_content`
produces exactly `vs.length` formatted records, and the record at each index
carries the key equal to the `icao24` identifier of the vector at that index
(keys are strings of the vector, hence non-null). -/
theorem spec_C4_record_count_and_keys (codes : List AircraftCode) (p : Payload)
    (vs : List StateVector) (h : p.states = some vs) :
    ∃ recs, _create_content codes p = some recs ∧ recs.length = vs.length ∧
      ∀ i : Nat, recs[i]?.map FormattedRecord.k = vs[i]?.map StateVector.icao24 := by
  refine ⟨vs.map (mkRecord codes p.time), by simp [_create_content, h], by simp, ?_⟩
  intro i
  rcases hv : vs[i]? with _ | v <;>
    simp [List.getElem?_map, hv, mkRecord_k]

/-- Witness for C4 at a one-vector payload. -/
theorem spec_C4_witness :
    ∃ recs, _create_content [] witnessPayload = some recs ∧
      recs.length = [sampleVec].length ∧
      ∀ i : Nat, recs[i]?.map FormattedRecord.k = [sampleVec][i]?.map StateVector.icao24 :=
  spec_C4_record_count_and_keys [] witnessPayload [sampleVec] rfl

/-- C8 fails as stated: with an empty reference table no entry matches the
identifier, yet `get_typeofaircraft` returns the empty-string pair left in its
initial accumulator, not the `Unidentified`/`Unknown` default. -/
theorem spec_C8_counterexample :
    get_typeofaircraft 1 [] "a1b2c3" = some ("", "") ∧
    get_typeofaircraft 1 [] "a1b2c3" ≠ some ("Unidentified", "Unknown") :=
  ⟨rfl, by decide⟩

/-- C8 amended: for a NON-EMPTY reference table, an identifier matching no
entry yields the `Unidentified`/`Unknown` default, and when entries match the
first matching entry supplies the manufacturer and model (with an empty table
the result is the empty-string pair). -/
theorem spec_C8_amended (codes : List AircraftCode) (ic : String) :
    (codes ≠ [] → (∀ c ∈ codes, c.icao24 ≠ ic) →
      get_typeofaircraft 1 codes ic = some ("Unidentified", "Unknown")) ∧
    (∀ c, codes.find? (fun e => e.icao24 == ic) = some c →
      get_typeofaircraft 1 codes ic = some (c.manufacturer, c.model)) := by
  constructor
  · intro hne hno
    rw [get_typeofaircraft_one, scanCodes_no_match ic codes hne hno]
  · intro c h
    rw [get_typeofaircraft_one, scanCodes_find ic codes c h]

/-- Witness for C8 amended: a miss on a two-entry table yields the default,
and a hit on the second entry yields that entry. -/
theorem spec_C8_witness :
    get_typeofaircraft 1 witnessCodes "ffffff" = some ("Unidentified", "Unknown") ∧
    get_typeofaircraft 1 witnessCodes "a1b2c3" = some ("Cessna", "172") :=
  ⟨(spec_C8_amended witnessCodes "ffffff").1 (by decide) (by decide),
    (spec_C8_amended witnessCodes "a1b2c3").2 ⟨"a1b2c3", "Cessna", "172"⟩ (by decide)⟩

/-- C1 fails as stated: with a fetch allowed and a 200 response whose states
field is null, `get_all` does yield null, but the previously cached record
list is NOT left unmodified — the null result is written over it. -/
theorem spec_C1_counterexample :
    _request_allowed 100 preState = true ∧
    (get_all [] 100 (.response 200 (some nullPayload)) preState).1 = none ∧
    (get_all [] 100 (.response 200 (some nullPayload)) preState).2.buffer
      ≠ preState.buffer :=
  ⟨rfl, rfl, by decide⟩

/-- C1 amended: with a fetch allowed and a 200 response whose states field is
null, `get_all` yields null and overwrites the cached buffer with that null
result (discarding the previously cached records), besides updating the
cool-down clock. -/
theorem spec_C1_amended (codes : List AircraftCode) (now : Int) (p : Payload)
    (s : SensorState) (hp : p.states = none) (hr : _request_allowed now s = true) :
    get_all codes now (.response 200 (some p)) s
      = (none, { s with last_used := some now, buffer := none }) := by
  have hc : _create_content codes p = none := by
    simp [_create_content, hp]
  simp [get_all, hr, _fetch_data, _write_buffer, hc]

/-- Witness for C1 amended at a concrete non-empty cache. -/
theorem spec_C1_witness :
    get_all [] 100 (.response 200 (some nullPayload)) preState
      = (none, { preState with last_used := some 100, buffer := none }) :=
  spec_C1_amended [] 100 nullPayload preState rfl rfl

/-- C2 fails as stated: when the fetch result is absent (null), `has_updates`
raises an uncaught `TypeError` at `len(content)` rather than returning 0. -/
theorem spec_C2_counterexample :
    (has_updates [] 100 .netError "a" emptyState).1 = .typeError ∧
    (has_updates [] 100 .netError "a" emptyState).1 ≠ .ok 0 :=
  ⟨rfl, by decide⟩

/-- C2 amended: `has_updates k` returns 0 when the gate refuses, when the
fetch result is the empty list, or when the first key equals `k`; it returns 1
exactly when the result is non-empty with a different first key; but when the
fetch result is null (absent), it raises an uncaught `TypeError` instead of
returning 0. -/
theorem spec_C2_amended (codes : List AircraftCode) (now : Int) (r : HttpResult)
    (k : String) (s : SensorState) :
    (_request_allowed now s = false → has_updates codes now r k s = (.ok 0, s)) ∧
    (_request_allowed now s = true →
      (∀ s2, _fetch_data codes now r s = (none, s2) →
        has_updates codes now r k s = (.typeError, s2)) ∧
      (∀ s2, _fetch_data codes now r s = (some [], s2) →
        has_updates codes now r k s = (.ok 0, s2)) ∧
      (∀ rec rest s2, _fetch_data codes now r s = (some (rec :: rest), s2) →
        has_updates codes now r k s = (if rec.k = k then .ok 0 else .ok 1, s2))) := by
  refine ⟨fun h => by simp [has_updates, h], fun hr => ⟨?_, ?_, ?_⟩⟩
  · intro s2 h
    simp [has_updates, hr, h]
  · intro s2 h
    simp [has_updates, hr, h]
  · intro rec rest s2 h
    simp only [has_updates, hr, if_true, h]

/-- Witness for C2 amended: a network error while the gate is open makes
`has_updates` raise. -/
theorem spec_C2_witness :
    has_updates [] 100 .netError "a" emptyState = (.typeError, emptyState) :=
  ((spec_C2_amended [] 100 .netError "a" emptyState).2 rfl).1 emptyState rfl

/-- C3 fails as stated: when `get_all` returns null (here: gate closed and
absent buffer), `get_content` raises an uncaught `TypeError` at
`len(content)` rather than returning null. -/
theorem spec_C3_counterexample :
    (get_content [] 105 .netError "a" coolingState).1 = .typeError ∧
    (get_content [] 105 .netError "a" coolingState).1 ≠ .ok none :=
  ⟨rfl, by decide⟩

/-- C3 amended: `get_content k` returns the full `get_all` list exactly when
it is non-empty with first key different from `k`; it returns null when the
list is empty or its first key equals `k`; but when `get_all` returns null it
raises an uncaught `TypeError` to the caller. -/
theorem spec_C3_amended (codes : List AircraftCode) (now : Int) (r : HttpResult)
    (k : String) (s : SensorState) :
    (∀ s2, get_all codes now r s = (none, s2) →
      get_content codes now r k s = (.typeError, s2)) ∧
    (∀ s2, get_all codes now r s = (some [], s2) →
      get_content codes now r k s = (.ok none, s2)) ∧
    (∀ rec rest s2, get_all codes now r s = (some (rec :: rest), s2) →
      get_content codes now r k s
        = (if rec.k = k then .ok none else .ok (some (rec :: rest)), s2)) := by
  refine ⟨?_, ?_, ?_⟩
  · intro s2 h
    simp [get_content, h]
  · intro s2 h
    simp [get_content, h]
  · intro rec rest s2 h
    simp only [get_content, h]

/-- Witness for C3 amended: a closed gate over an absent buffer makes
`get_content` raise. -/
theorem spec_C3_witness :
    get_content [] 105 .netError "a" coolingState = (.typeError, coolingState) :=
  (spec_C3_amended [] 105 .netError "a" coolingState).1 coolingState rfl

/-- C5 fails as stated: a first call whose fetch fails (non-200) still stamps
the cool-down clock, so a second call 5 seconds later (within the delta-20
window) serves the stale cached records — which differ from the null the
first call produced. -/
theorem spec_C5_counterexample :
    (get_all [] 100 (.response 500 none) primedState).1 = none ∧
    (get_all [] 100 (.response 500 none) primedState).2
      = ⟨some 100, 20, some [sampleRec]⟩ ∧
    (105 : Int) - 100 ≤ primedState.request_delta ∧
    (get_all [] 105 (.response 200 (some nullPayload))
        ⟨some 100, 20, some [sampleRec]⟩).1 = some [sampleRec] ∧
    some [sampleRec] ≠ (none : Option (List FormattedRecord)) :=
  ⟨rfl, rfl, by decide, rfl, by decide⟩

/-- C5 amended: within the rate-limit window the second call issues no network
request (its result is the same for every response `r2`) and returns the cache
exactly as the first call left it; when the first call carried a parseable 200
response this is identical to what the first call produced. (When the first
fetch failed after the GET completed, the second call instead returns the
stale cache, which can differ from the null the first call produced.) -/
theorem spec_C5_amended (codes : List AircraftCode) (now1 now2 : Int) (p : Payload)
    (s : SensorState) (hr : _request_allowed now1 s = true)
    (hw : now2 - now1 ≤ s.request_delta) :
    ∀ c1 s1, get_all codes now1 (.response 200 (some p)) s = (c1, s1) →
      ∀ r2, get_all codes now2 r2 s1 = (c1, s1) := by
  intro c1 s1 h r2
  have h1 : get_all codes now1 (.response 200 (some p)) s
      = (_create_content codes p,
         { s with last_used := some now1, buffer := _create_content codes p }) := by
    simp [get_all, hr, _fetch_data, _write_buffer]
  rw [h1] at h
  obtain ⟨hc, hs⟩ := Prod.mk.injEq _ _ _ _ ▸ h
  subst hc
  subst hs
  have hg : _request_allowed now2
      { s with last_used := some now1, buffer := _create_content codes p } = false := by
    simp only [_request_allowed, decide_eq_false_iff_not, not_lt]
    omega
  simp [get_all, hg, _read_buffer]

/-- Witness for C5 amended: after a successful states-null fetch at time 100,
a call at time 105 (window 20) returns the same null content and state. -/
theorem spec_C5_witness :
    get_all [] 105 .netError (⟨some 100, 20, none⟩ : SensorState)
      = (none, (⟨some 100, 20, none⟩ : SensorState)) :=
  spec_C5_amended [] 100 105 nullPayload primedState rfl (by decide)
    none ⟨some 100, 20, none⟩ rfl .netError

/-- C9: on every `_fetch_data` call whose GET completes (any status, any
body), the cool-down clock `last_used` is set to the current time — before
the status code is examined, so non-200 and unparseable responses also reset
it — while a raised network error leaves the whole state unchanged. -/
theorem spec_C9_last_used (codes : List AircraftCode) (now : Int) (s : SensorState) :
    _fetch_data codes now .netError s = (none, s) ∧
    ∀ status body,
      (_fetch_data codes now (.response status body) s).2.last_used = some now := by
  refine ⟨rfl, ?_⟩
  intro status body
  rcases body with _ | p <;>
    simp only [_fetch_data, _write_buffer] <;> split <;> rfl

/-- C10: whenever the rate-limit gate refuses, `has_updates` returns 0 with
the state untouched, whatever the cached buffer holds; and its returned value
never depends on the buffer at all (the cache is only read by
`get_all`/`get_content`). -/
theorem spec_C10_gate_short_circuit (codes : List AircraftCode) (now : Int)
    (r : HttpResult) (k : String) (s : SensorState) :
    (_request_allowed now s = false → has_updates codes now r k s = (.ok 0, s)) ∧
    ∀ b, (has_updates codes now r k { s with buffer := b }).1
      = (has_updates codes now r k s).1 := by
  constructor
  · intro h
    simp [has_updates, h]
  · intro b
    have hg : _request_allowed now { s with buffer := b } = _request_allowed now s := rfl
    by_cases h : _request_allowed now s = true
    · rcases hfd : _fetch_data codes now r s with ⟨c, s2⟩
      rcases hfd2 : _fetch_data codes now r { s with buffer := b } with ⟨c2, s3⟩
      have hc : c2 = c := by
        have hb := fetch_fst_buffer codes now r s b
        rw [hfd, hfd2] at hb
        exact hb
      subst hc
      rcases c2 with _ | ⟨_ | ⟨rec, rest⟩⟩ <;>
        simp [has_updates, h, hg, hfd, hfd2]
    · have h2 : _request_allowed now s = false := by
        revert h
        rcases _request_allowed now s with _ | _ <;> simp
      simp [has_updates, h2, hg]

/-- Witness for C10: a closed gate over a non-empty cached buffer whose first
key differs from the probe still yields 0. -/
theorem spec_C10_witness :
    has_updates [] 105 .netError "zzz" (⟨some 100, 10, some [sampleRec]⟩ : SensorState)
      = (.ok 0, (⟨some 100, 10, some [sampleRec]⟩ : SensorState)) :=
  (spec_C10_gate_short_circuit [] 105 .netError "zzz" ⟨some 100, 10, some [sampleRec]⟩).1 rfl

end OpenSky
